import Mathlib

/-!
Verification of the status-reporting subsystem of `codex-rs/cli/src/status.rs`:
session-log scanning (`extract_session_data`), the live-fetch / log fallback
policy in `run_status`, and the pure rendering helpers
(`display_rate_limits`, `display_rate_limit_bar`, `format_duration_label`,
`print_field`).

Machine integers of the source (`u64`, `i64`) are embedded as `Nat` / `Int`;
`f64` percentages are embedded as `Rat` (the arithmetic performed on them —
subtraction from 100, division by 100, multiplication by 20, rounding —
is exact on the numerals of interest). I/O is embedded as explicit data:
the file handed to the scanner is an `Except` of a list of read events,
where each event is either a successfully read line (carrying the result of
JSON parsing) or an I/O error that aborts the read, mirroring the `?`
propagation in the Rust code.
-/

namespace CodexStatus

/-- `TokenUsage` from `codex_core::protocol` (fields per spec section 3:
all non-negative integers). `TokenUsage::default()` is all zeroes. -/
structure TokenUsage where
  total_tokens : Nat
  input_tokens : Nat
  cached_input_tokens : Nat
  output_tokens : Nat
  reasoning_output_tokens : Nat
deriving Repr, DecidableEq

instance : Inhabited TokenUsage := ⟨⟨0, 0, 0, 0, 0⟩⟩

/-- One rate-limit window (spec section 3): `used_percent` is an `f64`
embedded as `Rat`; `window_minutes` and `resets_at` are optional `i64`. -/
structure RateLimitWindow where
  used_percent : Rat
  window_minutes : Option Int
  resets_at : Option Int
deriving Repr, DecidableEq

/-- Credit balance attached to a rate-limit snapshot (spec section 3/6). -/
structure CreditBalance where
  has_credits : Bool
  unlimited : Bool
  balance : Option String
deriving Repr, DecidableEq

/-- `RateLimitSnapshot` from `codex_core::protocol`: optional primary and
secondary windows, optional credit balance. -/
structure RateLimitSnapshot where
  primary : Option RateLimitWindow
  secondary : Option RateLimitWindow
  credits : Option CreditBalance
deriving Repr, DecidableEq

/-- JSON values, as produced by `serde_json::from_str` on one log line.
Numbers are embedded as `Rat` (covers both the integer and floating
literals the log contains). -/
inductive Json where
  | null
  | bool (b : Bool)
  | num (q : Rat)
  | str (s : String)
  | arr (elems : List Json)
  | obj (fields : List (String × Json))
deriving Repr, Inhabited

/-- Field lookup on a JSON object, as `serde_json::Value::get`. -/
def Json.get (j : Json) (key : String) : Option Json :=
  match j with
  | .obj fields => fields.lookup key
  | _ => none

/-- String view of a JSON value, as `serde_json::Value::as_str`. -/
def Json.asStr (j : Json) : Option String :=
  match j with
  | .str s => some s
  | _ => none

/-- Integer view of a JSON number (deserialization into `i64`). -/
def Json.asInt (j : Json) : Option Int :=
  match j with
  | .num q => if q.den = 1 then some q.num else none
  | _ => none

/-- Non-negative integer view of a JSON number (deserialization into `u64`). -/
def Json.asNat (j : Json) : Option Nat :=
  match j with
  | .num q => if q.den = 1 ∧ 0 ≤ q.num then some q.num.toNat else none
  | _ => none

/-- Rational view of a JSON number (deserialization into `f64`). -/
def Json.asNum (j : Json) : Option Rat :=
  match j with
  | .num q => some q
  | _ => none

/-- Boolean view of a JSON value. -/
def Json.asBool (j : Json) : Option Bool :=
  match j with
  | .bool b => some b
  | _ => none

/-- Modelled from the spec: serde deserialization of `TokenUsage`
(`codex_core::protocol`, not under src/). Spec section 4.1: the payload's
"total usage" object is deserialized field by field, missing fields
default to zero, and a field-level failure means no usage for this event. -/
def decodeTokenUsage (j : Json) : Option TokenUsage :=
  match j with
  | .obj _ =>
    let field : String → Option Nat := fun name =>
      match j.get name with
      | none => some 0
      | some .null => some 0
      | some v => v.asNat
    match field "total_tokens", field "input_tokens", field "cached_input_tokens",
        field "output_tokens", field "reasoning_output_tokens" with
    | some t, some i, some c, some o, some r => some ⟨t, i, c, o, r⟩
    | _, _, _, _, _ => none
  | _ => none

/-- Modelled from the spec: deserialization of one rate-limit window
(spec section 6: `used_percent` required number, `window_minutes` and
`resets_at` optional integers). -/
def decodeRateLimitWindow (j : Json) : Option RateLimitWindow :=
  match j with
  | .obj _ =>
    let optInt : String → Option (Option Int) := fun name =>
      match j.get name with
      | none => some none
      | some .null => some none
      | some v => (v.asInt).map some
    match (j.get "used_percent").bind Json.asNum,
        optInt "window_minutes", optInt "resets_at" with
    | some up, some wm, some ra => some ⟨up, wm, ra⟩
    | _, _, _ => none
  | _ => none

/-- Modelled from the spec: deserialization of the credit balance
(spec section 6: `has_credits` and `unlimited` required booleans,
`balance` optional string). -/
def decodeCreditBalance (j : Json) : Option CreditBalance :=
  match j with
  | .obj _ =>
    let optStr : Option (Option String) :=
      match j.get "balance" with
      | none => some none
      | some .null => some none
      | some v => (v.asStr).map some
    match (j.get "has_credits").bind Json.asBool,
        (j.get "unlimited").bind Json.asBool, optStr with
    | some h, some u, some b => some ⟨h, u, b⟩
    | _, _, _ => none
  | _ => none

/-- Modelled from the spec: deserialization of `RateLimitSnapshot`
(spec section 6: optional `primary`, `secondary`, `credits`; a present but
malformed sub-object fails the whole snapshot decode, per serde behavior). -/
def decodeRateLimitSnapshot (j : Json) : Option RateLimitSnapshot :=
  match j with
  | .obj _ =>
    let subObj : {α : Type} → (Json → Option α) → String → Option (Option α) :=
      fun dec name =>
        match j.get name with
        | none => some none
        | some .null => some none
        | some v => (dec v).map some
    match subObj decodeRateLimitWindow "primary",
        subObj decodeRateLimitWindow "secondary",
        subObj decodeCreditBalance "credits" with
    | some p, some s, some c => some ⟨p, s, c⟩
    | _, _, _ => none
  | _ => none

/-- Result of `extract_session_data` (struct `SessionData` in status.rs). -/
structure SessionData where
  token_usage : Option TokenUsage
  rate_limits : Option RateLimitSnapshot
deriving Repr, DecidableEq

/-- The mutable scan state of `extract_session_data`: `total_usage`,
`found_usage`, `rate_limits`. -/
structure ScanState where
  total_usage : TokenUsage
  found_usage : Bool
  rate_limits : Option RateLimitSnapshot
deriving Repr, DecidableEq

/-- The loop body of `extract_session_data` for one line of the log.
`parsed` is the outcome of `serde_json::from_str` on the line (`none` when
the line is not valid JSON). Mirrors status.rs lines 326-352: update the
usage state when the event carries a decodable total-usage object, then
update the rate-limit state when it carries a decodable rate-limits object. -/
def processLine (st : ScanState) (parsed : Option Json) : ScanState :=
  match parsed with
  | none => st
  | some value =>
    if (value.get "type").bind Json.asStr = some "event_msg" then
      match value.get "payload" with
      | none => st
      | some payload =>
        if (payload.get "type").bind Json.asStr = some "token_count" then
          let st1 : ScanState :=
            match payload.get "info" with
            | none => st
            | some info_obj =>
              match info_obj.get "total_token_usage" with
              | none => st
              | some total_obj =>
                match decodeTokenUsage total_obj with
                | some usage => { st with total_usage := usage, found_usage := true }
                | none => st
          match payload.get "rate_limits" with
          | none => st1
          | some limits_obj =>
            match decodeRateLimitSnapshot limits_obj with
            | some limits => { st1 with rate_limits := some limits }
            | none => st1
        else st
    else st

/-- One step of reading the session log: either a line was read
successfully (with its JSON parse result), or the read raised an I/O error,
which aborts the scan through the `?` operator. -/
inductive ReadEvent where
  | ok (parsed : Option Json)
  | ioError
deriving Repr

/-- The read loop of `extract_session_data` over the remaining read events. -/
def scanLoop (st : ScanState) : List ReadEvent → Except Unit SessionData
  | [] => .ok ⟨if st.found_usage then some st.total_usage else none, st.rate_limits⟩
  | .ioError :: _ => .error ()
  | .ok parsed :: rest => scanLoop (processLine st parsed) rest

/-- `extract_session_data` (status.rs lines 314-359): open the file
(`file = .error ()` models a failed open), then fold the loop body over
every line; the initial state is `TokenUsage::default()`, `found_usage =
false`, `rate_limits = None`. -/
def extract_session_data (file : Except Unit (List ReadEvent)) : Except Unit SessionData :=
  match file with
  | .error _ => .error ()
  | .ok events => scanLoop ⟨default, false, none⟩ events

/-- `format_duration_label` (status.rs lines 434-444). The divisions only
execute on arguments that are at least 60, where Rust truncating division
and Lean integer division agree. -/
def format_duration_label (minutes : Int) : String :=
  if minutes < 60 then toString minutes ++ "m"
  else if minutes < 1440 then toString (minutes / 60) ++ "h"
  else if minutes < 10080 then toString (minutes / 1440) ++ "d"
  else "Weekly"

/-- Rust `f64::round`: round to nearest, half away from zero. -/
def rustRound (q : Rat) : Int :=
  if 0 ≤ q then ⌊q + 1 / 2⌋ else ⌈q - 1 / 2⌉

/-- The numeric content of one rendered rate-limit bar: filled and empty
cell counts and the percentage shown beside it (printed by the source with
zero decimal places via `{:.0}`). -/
structure BarDisplay where
  filled : Nat
  empty : Nat
  percent_left : Rat
deriving Repr, DecidableEq

/-- Filled-cell count as a function of the fraction handed to the rounding
step (`display_rate_limit_bar` uses the fraction of the bar that is left).
The Rust `as usize` cast saturates negative values to zero, as `Int.toNat`. -/
def filledOfFraction (fraction : Rat) : Nat :=
  (rustRound (fraction * 20)).toNat

/-- `display_rate_limit_bar` (status.rs lines 401-432), numeric part:
`BAR_WIDTH = 20`, `percent_left = 100 - used_percent`,
`filled = round(percent_left / 100 * 20)` cast to `usize`,
`empty = BAR_WIDTH.saturating_sub(filled)`. -/
def display_rate_limit_bar (used_percent : Rat) : BarDisplay :=
  let percent_left : Rat := 100 - used_percent
  let filled : Nat := filledOfFraction (percent_left / 100)
  { filled := filled, empty := 20 - filled, percent_left := percent_left }

/-- The value column of one printed row: either plain text, or a rendered
rate-limit bar with its optional reset timestamp. -/
inductive RowValue where
  | text (s : String)
  | bar (b : BarDisplay) (resets_at : Option Int)
deriving Repr, DecidableEq

/-- One printed row: a label and a value (padding to the label column is
applied by `print_field` at output time). -/
structure Row where
  label : String
  value : RowValue
deriving Repr, DecidableEq

/-- `display_rate_limits` (status.rs lines 361-399) as the list of rows it
prints: one bar row per present window (label from `window_minutes` when
present, else "5h" / "Weekly", with " limit" appended), then the credits
row when `has_credits` holds and either `unlimited` or a balance string is
present. -/
def display_rate_limits (limits : RateLimitSnapshot) : List Row :=
  (match limits.primary with
   | none => []
   | some primary =>
     let label :=
       match primary.window_minutes with
       | some minutes => format_duration_label minutes
       | none => "5h"
     [⟨label ++ " limit", .bar (display_rate_limit_bar primary.used_percent) primary.resets_at⟩])
  ++
  (match limits.secondary with
   | none => []
   | some secondary =>
     let label :=
       match secondary.window_minutes with
       | some minutes => format_duration_label minutes
       | none => "Weekly"
     [⟨label ++ " limit", .bar (display_rate_limit_bar secondary.used_percent) secondary.resets_at⟩])
  ++
  (match limits.credits with
   | none => []
   | some credits =>
     if credits.has_credits then
       if credits.unlimited then [⟨"Credits", .text "Unlimited"⟩]
       else
         match credits.balance with
         | some balance => [⟨"Credits", .text (balance ++ " credits")⟩]
         | none => []
     else [])

/-- Which source the quota section of the report ended up using. -/
inductive QuotaOutcome where
  | live (s : RateLimitSnapshot)
  | fromLog (s : RateLimitSnapshot)
  | placeholder
deriving Repr, DecidableEq

/-- Trace of the quota part of one `run_status` invocation: whether the
live fetch was attempted, whether the session log was scanned, and which
snapshot (if any) was displayed. -/
structure QuotaTrace where
  fetchAttempted : Bool
  scanAttempted : Bool
  outcome : QuotaOutcome
deriving Repr, DecidableEq

/-- The quota-selection logic of `run_status` (status.rs lines 134-177).
Inputs embed the effectful collaborators: `auth_info` is the credential
lookup result (line 42); `fetched` is what `fetch_rate_limits_from_api`
would return if called; `session_id` is the id printed from the first
thread listing (lines 105-130); `list2` is the second thread listing of
the fallback path (`none` = listing failed, `some none` = empty page,
`some (some file)` = a first item whose log file reads as `file`). -/
def run_status_quota (auth_info : Option Unit) (fetched : Option RateLimitSnapshot)
    (session_id : Option String)
    (list2 : Option (Option (Except Unit (List ReadEvent)))) : QuotaTrace :=
  let rate_limits : Option RateLimitSnapshot :=
    match auth_info with
    | some _ => fetched
    | none => none
  match rate_limits with
  | some limits => ⟨auth_info.isSome, false, .live limits⟩
  | none =>
    match session_id with
    | some _ =>
      match list2 with
      | some (some file) =>
        match extract_session_data file with
        | .ok data =>
          match data.rate_limits with
          | some limits => ⟨auth_info.isSome, true, .fromLog limits⟩
          | none => ⟨auth_info.isSome, true, .placeholder⟩
        | .error _ => ⟨auth_info.isSome, true, .placeholder⟩
      | some none => ⟨auth_info.isSome, false, .placeholder⟩
      | none => ⟨auth_info.isSome, false, .placeholder⟩
    | none => ⟨auth_info.isSome, false, .placeholder⟩

/-- Rows printed by the quota section of `run_status` for a given outcome:
a displayed snapshot goes through `display_rate_limits`; otherwise the
single placeholder row of lines 163-175 is printed. -/
def quota_section_rows (outcome : QuotaOutcome) : List Row :=
  match outcome with
  | .live limits => display_rate_limits limits
  | .fromLog limits => display_rate_limits limits
  | .placeholder => [⟨"5h limit", .text "data not available yet"⟩]

/-- The candidate label list `run_status` builds for alignment
(status.rs lines 33-53): five fixed labels, then "Model provider" when a
provider row will be printed, then "Session", "5h limit", "Weekly limit"
unconditionally. -/
def statusLabels (has_provider : Bool) : List String :=
  ["Model", "Directory", "Approval", "Sandbox", "Agents.md"]
  ++ (if has_provider then ["Model provider"] else [])
  ++ ["Session", "5h limit", "Weekly limit"]

/-- Maximum character length over a list of labels (`.max().unwrap_or(0)`). -/
def maxLen (labels : List String) : Nat :=
  (labels.map String.length).foldl Nat.max 0

/-- `label_width` as computed at status.rs line 54. -/
def label_width (has_provider : Bool) : Nat :=
  maxLen (statusLabels has_provider)

/-- Left-justified space padding to a minimum width, as Rust `{:width$}`
(no truncation when the text is longer than the width). -/
def padTo (s : String) (w : Nat) : String :=
  s ++ String.mk (List.replicate (w - s.length) ' ')

/-- `print_field` (status.rs lines 188-195): one leading space, the label
with ":" appended padded to `label_width + 1`, three spaces, the value. -/
def print_field (label value : String) (width : Nat) : String :=
  " " ++ padTo (label ++ ":") (width + 1) ++ "   " ++ value

/-- Labels of the rows actually printed in one invocation: "Model" always;
"Model provider" only when the provider is not the default; "Directory",
"Approval", "Sandbox", "Agents.md" always; "Session" only when a session
was found; then the labels of the quota-section rows. -/
def printedLabels (has_provider has_session : Bool) (quotaRows : List Row) : List String :=
  ["Model"]
  ++ (if has_provider then ["Model provider"] else [])
  ++ ["Directory", "Approval", "Sandbox", "Agents.md"]
  ++ (if has_session then ["Session"] else [])
  ++ quotaRows.map Row.label

/-- The usage snapshot one line contributes, independent of scan state:
the guards of `processLine` followed by the usage decode. -/
def lineUsage (parsed : Option Json) : Option TokenUsage :=
  match parsed with
  | none => none
  | some value =>
    if (value.get "type").bind Json.asStr = some "event_msg" then
      match value.get "payload" with
      | none => none
      | some payload =>
        if (payload.get "type").bind Json.asStr = some "token_count" then
          match payload.get "info" with
          | none => none
          | some info_obj =>
            match info_obj.get "total_token_usage" with
            | none => none
            | some total_obj => decodeTokenUsage total_obj
        else none
    else none

/-- The rate-limit snapshot one line contributes, independent of scan
state: the guards of `processLine` followed by the rate-limit decode. -/
def lineLimits (parsed : Option Json) : Option RateLimitSnapshot :=
  match parsed with
  | none => none
  | some value =>
    if (value.get "type").bind Json.asStr = some "event_msg" then
      match value.get "payload" with
      | none => none
      | some payload =>
        if (payload.get "type").bind Json.asStr = some "token_count" then
          match payload.get "rate_limits" with
          | none => none
          | some limits_obj => decodeRateLimitSnapshot limits_obj
        else none
    else none

/-- The last value of `f` over a list, preferring later elements
(last-occurrence-wins). -/
def lastSome? (f : α → Option β) : List α → Option β
  | [] => none
  | a :: l =>
    match lastSome? f l with
    | some b => some b
    | none => f a

/-- Modelled from the spec: rendering of a non-negative quotient to one
decimal place (spec section 4.4, "to 1 decimal"; rounding to nearest,
half away from zero). No abbreviation code exists under src/. -/
def oneDecimal (q : Rat) : String :=
  let tenths : Int := rustRound (q * 10)
  toString (tenths / 10) ++ "." ++ toString (tenths % 10)

/-- Modelled from the spec: the token-count abbreviation of spec section
4.4 — below 1,000 the bare integer; below 1,000,000 the value over 1,000
to one decimal with "k"; otherwise the value over 1,000,000 to one decimal
with "M". No abbreviation code exists under src/. -/
def abbreviate (t : Nat) : String :=
  if t < 1000 then toString t
  else if t < 1000000 then oneDecimal ((t : Rat) / 1000) ++ "k"
  else oneDecimal ((t : Rat) / 1000000) ++ "M"

/-- Whether a row is a rate-limit bar row (as opposed to a plain text row
such as "Credits"; within `display_rate_limits` exactly the window rows
are bar rows). -/
def isWindowRow (r : Row) : Bool :=
  match r.value with
  | .bar _ _ => true
  | .text _ => false

/-- A well-formed `token_count` event line whose total-usage object carries
only `total_tokens` (the remaining usage fields default to zero). -/
def usageEvent (total : Rat) : Json :=
  Json.obj [("type", .str "event_msg"),
    ("payload", .obj [("type", .str "token_count"),
      ("info", .obj [("total_token_usage", .obj [("total_tokens", .num total)])])])]

/-- A well-formed event line that is not a `token_count` event. -/
def noiseLine : Json :=
  Json.obj [("type", .str "event_msg"), ("payload", .obj [("type", .str "turn_context")])]

/-- A `token_count` event line carrying only a rate-limits object with a
primary window at 1% of a 300-minute window and a secondary window at 5%
of a 10080-minute window. -/
def rateLimitsEvent : Json :=
  Json.obj [("type", .str "event_msg"),
    ("payload", .obj [("type", .str "token_count"),
      ("rate_limits", .obj [
        ("primary", .obj [("used_percent", .num 1), ("window_minutes", .num 300)]),
        ("secondary", .obj [("used_percent", .num 5), ("window_minutes", .num 10080)])])])]

/-- The rate-limit snapshot encoded by `rateLimitsEvent`. -/
def sampleSnapshot : RateLimitSnapshot :=
  ⟨some ⟨1, some 300, none⟩, some ⟨5, some 10080, none⟩, none⟩

/-- Claim C6: the duration label is "{m}m" for m below 60, "{h}h" with
h the truncated quotient by 60 below 1440, "{d}d" with d the truncated
quotient by 1440 below 10080, and "Weekly" from 10080 on; with the five
concrete evaluations required by the spec. -/
theorem C6_duration_label :
    (∀ m : Int, m < 60 → format_duration_label m = toString m ++ "m") ∧
    (∀ m : Int, 60 ≤ m → m < 1440 → format_duration_label m = toString (m / 60) ++ "h") ∧
    (∀ m : Int, 1440 ≤ m → m < 10080 → format_duration_label m = toString (m / 1440) ++ "d") ∧
    (∀ m : Int, 10080 ≤ m → format_duration_label m = "Weekly") ∧
    format_duration_label 30 = "30m" ∧ format_duration_label 60 = "1h" ∧
    format_duration_label 300 = "5h" ∧ format_duration_label 1440 = "1d" ∧
    format_duration_label 10080 = "Weekly" := by
  refine ⟨?_, ?_, ?_, ?_, by decide, by decide, by decide, by decide, by decide⟩
  · intro m h
    simp [format_duration_label, h]
  · intro m h1 h2
    unfold format_duration_label
    rw [if_neg (by omega), if_pos h2]
  · intro m h1 h2
    unfold format_duration_label
    rw [if_neg (by omega), if_neg (by omega), if_pos h2]
  · intro m h
    unfold format_duration_label
    rw [if_neg (by omega), if_neg (by omega), if_neg (by omega)]

/-- Witness for C6: the quantified clauses applied at 30, 300, 2880 and
20000 minutes. -/
theorem C6_duration_label_witness :
    format_duration_label 30 = toString (30 : Int) ++ "m" ∧
    format_duration_label 300 = toString ((300 : Int) / 60) ++ "h" ∧
    format_duration_label 2880 = toString ((2880 : Int) / 1440) ++ "d" ∧
    format_duration_label 20000 = "Weekly" :=
  ⟨C6_duration_label.1 30 (by decide),
   C6_duration_label.2.1 300 (by decide) (by decide),
   C6_duration_label.2.2.1 2880 (by decide) (by decide),
   C6_duration_label.2.2.2.1 20000 (by decide)⟩

/-- Claim C7: the filled-cell count is the round-to-nearest of the
percent-remaining fraction times the bar width 20, the empty count is the
saturating complement (zero whenever filled reaches the width), the
percentage printed beside the bar is 100 minus the used percentage, the
filled count stays within the bar width for any used percentage in
[0, 100], and the filled count is monotone in the fraction. -/
theorem C7_bar_fill :
    (∀ f : Rat, filledOfFraction f = (rustRound (f * 20)).toNat) ∧
    (∀ u : Rat, (display_rate_limit_bar u).filled = filledOfFraction ((100 - u) / 100)) ∧
    (∀ u : Rat, (display_rate_limit_bar u).percent_left = 100 - u) ∧
    (∀ u : Rat, (display_rate_limit_bar u).empty = 20 - (display_rate_limit_bar u).filled) ∧
    (∀ u : Rat, 20 ≤ (display_rate_limit_bar u).filled → (display_rate_limit_bar u).empty = 0) ∧
    (∀ u : Rat, 0 ≤ u → u ≤ 100 → (display_rate_limit_bar u).filled ≤ 20) ∧
    (∀ f₁ f₂ : Rat, 0 ≤ f₁ → f₁ ≤ f₂ → filledOfFraction f₁ ≤ filledOfFraction f₂) := by
  refine ⟨fun f => rfl, fun u => rfl, fun u => rfl, fun u => rfl, ?_, ?_, ?_⟩
  · intro u h
    exact Nat.sub_eq_zero_of_le h
  · intro u h0 h100
    show (rustRound ((100 - u) / 100 * 20)).toNat ≤ 20
    have hf : (0 : Rat) ≤ (100 - u) / 100 * 20 :=
      mul_nonneg (div_nonneg (by linarith) (by norm_num)) (by norm_num)
    rw [rustRound, if_pos hf, Int.toNat_le]
    have hb : (100 - u) / 100 * 20 + 1 / 2 ≤ 41 / 2 := by linarith
    calc ⌊(100 - u) / 100 * 20 + 1 / 2⌋ ≤ ⌊(41 / 2 : Rat)⌋ := Int.floor_le_floor hb
      _ = 20 := by norm_num
  · intro f₁ f₂ h0 hle
    have h1 : (0 : Rat) ≤ f₁ * 20 := by positivity
    have h2 : (0 : Rat) ≤ f₂ * 20 := by linarith
    simp only [filledOfFraction, rustRound, if_pos h1, if_pos h2]
    exact Int.toNat_le_toNat (Int.floor_le_floor (by linarith))

/-- Witness for C7: the bounded and monotone clauses at the used
percentage 25 and the fractions 0 and 3/4. -/
theorem C7_bar_fill_witness :
    (display_rate_limit_bar 25).filled ≤ 20 ∧
    filledOfFraction 0 ≤ filledOfFraction (3 / 4) :=
  ⟨C7_bar_fill.2.2.2.2.2.1 25 (by norm_num) (by norm_num),
   C7_bar_fill.2.2.2.2.2.2 0 (3 / 4) (by norm_num) (by norm_num)⟩

/-- Claim C8: the token-count abbreviation renders values below 1000 as
the bare integer, values below 1000000 as the quotient by 1000 to one
decimal with "k", larger values as the quotient by 1000000 to one decimal
with "M"; with the spec's boundary evaluations (999999 stays in the "k"
tier, rendered "1000.0k"). -/
theorem C8_abbreviate :
    (∀ t : Nat, t < 1000 → abbreviate t = toString t) ∧
    (∀ t : Nat, 1000 ≤ t → t < 1000000 → abbreviate t = oneDecimal ((t : Rat) / 1000) ++ "k") ∧
    (∀ t : Nat, 1000000 ≤ t → abbreviate t = oneDecimal ((t : Rat) / 1000000) ++ "M") ∧
    abbreviate 999 = "999" ∧ abbreviate 1000 = "1.0k" ∧
    abbreviate 999999 = "1000.0k" ∧ abbreviate 1000000 = "1.0M" ∧
    abbreviate 500 = "500" ∧ abbreviate 45200 = "45.2k" ∧ abbreviate 2300000 = "2.3M" := by
  refine ⟨?_, ?_, ?_, by decide, ?_, ?_, ?_, by decide, ?_, ?_⟩
  · intro t h
    simp [abbreviate, h]
  · intro t h1 h2
    unfold abbreviate
    rw [if_neg (by omega), if_pos h2]
  · intro t h
    unfold abbreviate
    rw [if_neg (by omega), if_neg (by omega)]
  all_goals simp [abbreviate, oneDecimal, rustRound]
  all_goals norm_num
  all_goals decide

/-- Witness for C8: the quantified tier clauses applied at 999, 45200 and
2300000 tokens. -/
theorem C8_abbreviate_witness :
    abbreviate 999 = toString (999 : Nat) ∧
    abbreviate 45200 = oneDecimal ((45200 : Rat) / 1000) ++ "k" ∧
    abbreviate 2300000 = oneDecimal ((2300000 : Rat) / 1000000) ++ "M" :=
  ⟨C8_abbreviate.1 999 (by decide),
   C8_abbreviate.2.1 45200 (by decide) (by decide),
   C8_abbreviate.2.2.1 2300000 (by decide)⟩

/-- Counterexample to claim C5: in an invocation with the default provider,
no session and no rate-limit data, the labels actually printed are
"Model", "Directory", "Approval", "Sandbox", "Agents.md" and the
placeholder row "5h limit" (longest: 9 characters), yet the column width
used is 12 — the width is computed from a fixed candidate list that always
contains "Session", "5h limit" and "Weekly limit", not from the labels
actually printed. -/
theorem C5_counterexample :
    label_width false = 12 ∧
    maxLen (printedLabels false false
      (quota_section_rows (run_status_quota none none none none).outcome)) = 9 := by
  constructor <;> decide

/-- Claim C5 as amended: the label column width is the maximum character
length over the fixed candidate list built at startup (the five
always-present labels plus "Model provider" exactly when that row will be
printed, "Session", "5h limit", "Weekly limit"); every label of that list
fits in the width, and `print_field` pads each printed label (with ":"
appended) to width + 1 columns. -/
theorem C5_label_width :
    (∀ p : Bool, label_width p = maxLen (statusLabels p)) ∧
    label_width true = 14 ∧ label_width false = 12 ∧
    (∀ p : Bool, ∀ l ∈ statusLabels p, l.length ≤ label_width p) ∧
    (∀ s : String, ∀ w : Nat, (padTo s w).length = max s.length w) ∧
    (∀ label value : String, ∀ w : Nat,
      print_field label value w = " " ++ padTo (label ++ ":") (w + 1) ++ "   " ++ value) := by
  refine ⟨fun p => rfl, by decide, by decide, ?_, ?_, fun label value w => rfl⟩
  · intro p
    cases p <;> decide
  · intro s w
    simp [padTo]
    rcases Nat.le_total s.length w with h | h
    · rw [max_eq_right h]
      omega
    · rw [max_eq_left h]
      omega

/-- Witness for C5: the longest candidate label of the default-provider
invocation fits in the computed width. -/
theorem C5_label_width_witness :
    ("Weekly limit" : String).length ≤ label_width false :=
  C5_label_width.2.2.2.1 false "Weekly limit" (by decide)

/-- Claim C9: `display_rate_limits` prints one window row per window
present in the snapshot (an absent window contributes no row), labelled by
the duration label of `window_minutes` when present and by the defaults
"5h" (primary) and "Weekly" (secondary) otherwise, each with " limit"
appended. -/
theorem C9_window_rows :
    ∀ s : RateLimitSnapshot,
      ((display_rate_limits s).filter isWindowRow).map Row.label =
        (s.primary.toList.map fun w =>
          (w.window_minutes.elim "5h" format_duration_label) ++ " limit")
        ++ (s.secondary.toList.map fun w =>
          (w.window_minutes.elim "Weekly" format_duration_label) ++ " limit") := by
  intro s
  rcases s with ⟨p, sec, c⟩
  rcases p with _ | ⟨up₁, wm₁, ra₁⟩ <;> rcases sec with _ | ⟨up₂, wm₂, ra₂⟩ <;>
    rcases c with _ | ⟨hc, ul, bal⟩
  all_goals try cases hc
  all_goals try cases ul
  all_goals try rcases bal with _ | b
  all_goals try rcases wm₁ with _ | m₁
  all_goals try rcases wm₂ with _ | m₂
  all_goals simp [display_rate_limits, isWindowRow]

/-- Claim C10: the non-bar rows of `display_rate_limits` are exactly the
credits row, printed only when the snapshot carries a credit balance with
`has_credits` set — "Unlimited" when `unlimited` holds, "{balance}
credits" when a balance string is present, and nothing otherwise. -/
theorem C10_credits_row :
    ∀ (s : RateLimitSnapshot) (c : CreditBalance), s.credits = some c →
      (display_rate_limits s).filter (fun r => !isWindowRow r) =
        (if c.has_credits then
          (if c.unlimited then [⟨"Credits", RowValue.text "Unlimited"⟩]
           else c.balance.toList.map fun b => ⟨"Credits", RowValue.text (b ++ " credits")⟩)
         else []) := by
  intro s c hc
  rcases s with ⟨p, sec, c'⟩
  cases hc
  rcases c with ⟨hcred, ul, bal⟩
  rcases p with _ | ⟨up₁, wm₁, ra₁⟩ <;> rcases sec with _ | ⟨up₂, wm₂, ra₂⟩ <;>
    cases hcred <;> cases ul <;> rcases bal with _ | b
  all_goals try rcases wm₁ with _ | m₁
  all_goals try rcases wm₂ with _ | m₂
  all_goals simp [display_rate_limits, isWindowRow]

/-- Witness for C10: a snapshot with both windows and a finite credit
balance of "12.5" prints exactly one "Credits" row reading "12.5 credits". -/
theorem C10_credits_row_witness :
    (display_rate_limits ⟨some ⟨1, some 300, none⟩, some ⟨5, some 10080, none⟩,
        some ⟨true, false, some "12.5"⟩⟩).filter (fun r => !isWindowRow r) =
      [⟨"Credits", RowValue.text ("12.5" ++ " credits")⟩] := by
  have h := C10_credits_row ⟨some ⟨1, some 300, none⟩, some ⟨5, some 10080, none⟩,
    some ⟨true, false, some "12.5"⟩⟩ ⟨true, false, some "12.5"⟩ rfl
  simpa using h

/-- Counterexample to claim C4: with no credentials and no session —
so neither source yields a snapshot — the quota section prints exactly one
placeholder row, labelled "5h limit"; no "Weekly limit" placeholder row is
printed, contrary to the claim's "for each quota window". -/
theorem C4_counterexample :
    (quota_section_rows (run_status_quota none none none none).outcome).map Row.label
      = ["5h limit"] ∧
    "Weekly limit" ∉
      (quota_section_rows (run_status_quota none none none none).outcome).map Row.label := by
  constructor <;> decide

/-- Claim C4 as amended: when neither the live fetch nor the session log
yields a rate-limit snapshot, the quota section renders exactly one
explicit "data not available yet" placeholder row, labelled for the 5h
window only; no bar row (and hence no stale or zero percentage) is
printed, and the report is produced totally (never crashes). -/
theorem C4_placeholder :
    ∀ (auth : Option Unit) (fetched : Option RateLimitSnapshot) (sid : Option String)
      (list2 : Option (Option (Except Unit (List ReadEvent)))),
      (auth = none ∨ fetched = none) →
      (¬ ∃ file d l, list2 = some (some file) ∧ extract_session_data file = .ok d ∧
        d.rate_limits = some l) →
      (run_status_quota auth fetched sid list2).outcome = QuotaOutcome.placeholder ∧
      quota_section_rows (run_status_quota auth fetched sid list2).outcome
        = [⟨"5h limit", RowValue.text "data not available yet"⟩] := by
  intro auth fetched sid list2 hnf hlog
  have houtcome : (run_status_quota auth fetched sid list2).outcome = QuotaOutcome.placeholder := by
    rcases hnf with h | h <;> subst h <;>
      try rcases auth with _ | a
    all_goals (unfold run_status_quota; repeat' split)
    all_goals first
      | rfl
      | contradiction
      | exact absurd ⟨_, _, _, rfl, by assumption, by assumption⟩ hlog
  exact ⟨houtcome, by rw [houtcome]; rfl⟩

/-- Witness for C4: the amended claim applied to the invocation with no
credentials and no session. -/
theorem C4_placeholder_witness :
    quota_section_rows (run_status_quota none none none none).outcome
      = [⟨"5h limit", RowValue.text "data not available yet"⟩] :=
  (C4_placeholder none none none none (Or.inl rfl) (by simp)).2

/-- Counterexample to claim C1: with an authenticated credential but no
session, the live fetch is still attempted and its snapshot used — the
claim's "only when a session exists" is wrong; and with no session and no
credentials the session log is never scanned, contrary to the claim's
"if no session exists ... the most recent session's log is scanned". -/
theorem C1_counterexample :
    (run_status_quota (some ()) (some ⟨none, none, none⟩) none none).fetchAttempted = true ∧
    (run_status_quota (some ()) (some ⟨none, none, none⟩) none none).outcome
      = QuotaOutcome.live ⟨none, none, none⟩ ∧
    (run_status_quota none none none none).scanAttempted = false := by
  refine ⟨rfl, rfl, rfl⟩

/-- Claim C1 as amended: the live fetch is attempted exactly when an
authenticated credential is available (independently of session
existence); when it succeeds, its snapshot is used and the log-derived
path is skipped entirely; when no credentials are available or the live
fetch fails, and a session exists whose record and log are readable, the
log's rate-limit snapshot is used when present; when no session exists the
log is never scanned. -/
theorem C1_fallback_policy :
    ∀ (auth : Option Unit) (fetched : Option RateLimitSnapshot) (sid : Option String)
      (list2 : Option (Option (Except Unit (List ReadEvent)))),
      ((run_status_quota auth fetched sid list2).fetchAttempted = auth.isSome) ∧
      (∀ s, auth = some () → fetched = some s →
        (run_status_quota auth fetched sid list2).outcome = QuotaOutcome.live s ∧
        (run_status_quota auth fetched sid list2).scanAttempted = false) ∧
      ((auth = none ∨ fetched = none) → ∀ x file d l, sid = some x →
        list2 = some (some file) → extract_session_data file = .ok d →
        d.rate_limits = some l →
        (run_status_quota auth fetched sid list2).outcome = QuotaOutcome.fromLog l ∧
        (run_status_quota auth fetched sid list2).scanAttempted = true) ∧
      (sid = none → (run_status_quota auth fetched sid list2).scanAttempted = false) := by
  intro auth fetched sid list2
  refine ⟨?_, ?_, ?_, ?_⟩
  · rcases auth with _ | a <;> rcases fetched with _ | s <;>
      (unfold run_status_quota; repeat' split) <;> rfl
  · intro s ha hf
    subst ha
    subst hf
    exact ⟨rfl, rfl⟩
  · intro hnf x file d l hsid hlist hex hlim
    subst hsid
    subst hlist
    rcases hnf with h | h <;> subst h <;>
      try rcases auth with _ | a
    all_goals simp only [run_status_quota, hex, hlim]
    all_goals exact ⟨by trivial, by trivial⟩
  · intro hsid
    subst hsid
    rcases auth with _ | a <;> rcases fetched with _ | s <;> rfl

/-- Witness for C1: the live clause applied with a credential, a
successful fetch and no session, and the log clause applied with no
credential, a session, and a log containing the sample rate-limit event. -/
theorem C1_fallback_policy_witness :
    ((run_status_quota (some ()) (some sampleSnapshot) none none).outcome
        = QuotaOutcome.live sampleSnapshot ∧
      (run_status_quota (some ()) (some sampleSnapshot) none none).scanAttempted = false) ∧
    ((run_status_quota none none (some "s")
          (some (some (.ok [ReadEvent.ok (some rateLimitsEvent)])))).outcome
        = QuotaOutcome.fromLog sampleSnapshot ∧
      (run_status_quota none none (some "s")
          (some (some (.ok [ReadEvent.ok (some rateLimitsEvent)])))).scanAttempted = true) :=
  ⟨(C1_fallback_policy (some ()) (some sampleSnapshot) none none).2.1 sampleSnapshot rfl rfl,
   (C1_fallback_policy none none (some "s")
       (some (some (.ok [ReadEvent.ok (some rateLimitsEvent)])))).2.2.1 (Or.inl rfl)
     "s" (.ok [ReadEvent.ok (some rateLimitsEvent)]) ⟨none, some sampleSnapshot⟩
     sampleSnapshot rfl rfl rfl rfl⟩

/-- The usage and rate-limit updates of one loop iteration are independent
of the incoming state except as fallback: a line's own usage snapshot (when
any) replaces the folded one, and likewise for rate limits. -/
theorem processLine_factor (st : ScanState) (p : Option Json) :
    processLine st p =
      { total_usage := (lineUsage p).getD st.total_usage,
        found_usage := (lineUsage p).isSome || st.found_usage,
        rate_limits :=
          match lineLimits p with
          | some l => some l
          | none => st.rate_limits } := by
  rcases p with _ | value
  · rfl
  by_cases h1 : (value.get "type").bind Json.asStr = some "event_msg"
  case neg => simp [processLine, lineUsage, lineLimits, h1]
  rcases hp : value.get "payload" with _ | payload
  case pos.none => simp [processLine, lineUsage, lineLimits, h1, hp]
  by_cases h2 : (payload.get "type").bind Json.asStr = some "token_count"
  case neg => simp [processLine, lineUsage, lineLimits, h1, hp, h2]
  rcases hinfo : payload.get "info" with _ | info_obj
  · rcases hrl : payload.get "rate_limits" with _ | limits_obj
    · simp [processLine, lineUsage, lineLimits, h1, hp, h2, *]
    · rcases hdl : decodeRateLimitSnapshot limits_obj with _ | limits <;>
        simp [processLine, lineUsage, lineLimits, h1, hp, h2, *]
  · rcases htot : info_obj.get "total_token_usage" with _ | total_obj
    · rcases hrl : payload.get "rate_limits" with _ | limits_obj
      · simp [processLine, lineUsage, lineLimits, h1, hp, h2, *]
      · rcases hdl : decodeRateLimitSnapshot limits_obj with _ | limits <;>
          simp [processLine, lineUsage, lineLimits, h1, hp, h2, *]
    · rcases hdu : decodeTokenUsage total_obj with _ | usage <;>
      · rcases hrl : payload.get "rate_limits" with _ | limits_obj
        · simp [processLine, lineUsage, lineLimits, h1, hp, h2, *]
        · rcases hdl : decodeRateLimitSnapshot limits_obj with _ | limits <;>
            simp [processLine, lineUsage, lineLimits, h1, hp, h2, *]

/-- Running the scan loop over a list of successfully read lines from any
starting state yields the last usage and rate-limit snapshots contributed
by the lines, falling back to the starting state's values. -/
theorem scanLoop_map_ok (ls : List (Option Json)) (st : ScanState) :
    scanLoop st (ls.map ReadEvent.ok) =
      .ok ⟨(lastSome? lineUsage ls).elim
            (if st.found_usage then some st.total_usage else none) some,
          (lastSome? lineLimits ls).elim st.rate_limits some⟩ := by
  induction ls generalizing st with
  | nil => rfl
  | cons p ls ih =>
    simp only [List.map_cons, scanLoop, ih, lastSome?]
    rcases hU : lastSome? lineUsage ls with _ | u <;>
      rcases hL : lastSome? lineLimits ls with _ | l <;>
      rw [processLine_factor] <;>
      rcases hu : lineUsage p with _ | u' <;> rcases hl : lineLimits p with _ | l' <;>
      simp [Option.elim]

/-- On a log whose every line is read successfully, the scan returns the
last usage and the last rate-limit snapshot any line yields. -/
theorem extract_ok_eq (ls : List (Option Json)) :
    extract_session_data (.ok (ls.map ReadEvent.ok)) =
      .ok ⟨lastSome? lineUsage ls, lastSome? lineLimits ls⟩ := by
  show scanLoop ⟨default, false, none⟩ (ls.map ReadEvent.ok) = _
  rw [scanLoop_map_ok]
  rcases lastSome? lineUsage ls <;> rcases lastSome? lineLimits ls <;> rfl

/-- The scan loop succeeds from any state when no read event is an I/O
error, whatever the lines contain. -/
theorem scanLoop_ok_of_no_error :
    ∀ (evs : List ReadEvent) (st : ScanState), ReadEvent.ioError ∉ evs →
      ∃ d, scanLoop st evs = .ok d := by
  intro evs
  induction evs with
  | nil => exact fun st _ => ⟨_, rfl⟩
  | cons e evs ih =>
    intro st h
    rcases e with p | _
    · exact ih (processLine st p) (fun hm => h (List.mem_cons_of_mem _ hm))
    · exact absurd (List.mem_cons_self _ _) h

/-- The scan loop fails only when some read event is an I/O error. -/
theorem scanLoop_error_mem :
    ∀ (evs : List ReadEvent) (st : ScanState), scanLoop st evs = .error () →
      ReadEvent.ioError ∈ evs := by
  intro evs
  induction evs with
  | nil => intro st h; exact absurd h (by simp [scanLoop])
  | cons e evs ih =>
    intro st h
    rcases e with p | _
    · exact List.mem_cons_of_mem _ (ih (processLine st p) h)
    · exact List.mem_cons_self _ _

/-- Claim C2: the scanner applies the extractor to every line with no
early exit, and the result is last-occurrence-wins independently for usage
and for rate limits; in particular a log with token-count events totalling
1000 then 2000 followed by a non-matching line yields final usage total
2000. -/
theorem C2_scanner_last_wins :
    (∀ ls : List (Option Json),
      extract_session_data (.ok (ls.map ReadEvent.ok)) =
        .ok ⟨lastSome? lineUsage ls, lastSome? lineLimits ls⟩) ∧
    lineUsage (some (usageEvent 1000)) = some ⟨1000, 0, 0, 0, 0⟩ ∧
    lineUsage (some (usageEvent 2000)) = some ⟨2000, 0, 0, 0, 0⟩ ∧
    lineUsage (some noiseLine) = none ∧ lineLimits (some noiseLine) = none ∧
    extract_session_data (.ok ([some (usageEvent 1000), some (usageEvent 2000),
        some noiseLine].map ReadEvent.ok)) =
      .ok ⟨some ⟨2000, 0, 0, 0, 0⟩, none⟩ :=
  ⟨extract_ok_eq, rfl, rfl, rfl, rfl, rfl⟩

/-- Claim C3: the scanner never fails on content — any list of read lines
free of I/O errors yields a result, whatever the lines parse to; it fails
exactly when opening fails or a read raises an I/O error; and scanning an
empty file yields no usage and no rate limits, with no error. -/
theorem C3_scan_failure_modes :
    (∀ evs : List ReadEvent, ReadEvent.ioError ∉ evs →
      ∃ d, extract_session_data (.ok evs) = .ok d) ∧
    (∀ evs : List ReadEvent, extract_session_data (.ok evs) = .error () →
      ReadEvent.ioError ∈ evs) ∧
    extract_session_data (.error ()) = .error () ∧
    extract_session_data (.ok []) = .ok ⟨none, none⟩ :=
  ⟨fun evs h => scanLoop_ok_of_no_error evs ⟨default, false, none⟩ h,
   fun evs h => scanLoop_error_mem evs ⟨default, false, none⟩ h,
   rfl, rfl⟩

/-- Witness for C3: the no-I/O-error clause applied to a one-line log
whose line is not valid JSON, and the failure clause applied to a log
whose first read raises an I/O error. -/
theorem C3_scan_failure_modes_witness :
    (∃ d, extract_session_data (.ok [ReadEvent.ok none]) = .ok d) ∧
    ReadEvent.ioError ∈ [ReadEvent.ioError] :=
  ⟨C3_scan_failure_modes.1 [ReadEvent.ok none] (by simp),
   C3_scan_failure_modes.2.1 [ReadEvent.ioError] rfl⟩

end CodexStatus
